import Mathlib

/-!
Shallow embedding of the h3 client core (src/h3/src/connection.rs and
src/h3/src/client.rs): the shared connection state, the connection
driver's control-frame handling, the request dispatcher, and the
per-request stream operations.  External collaborators — the QUIC
transport, the QPACK codec, the frame codec and the HTTP header mapping —
are modelled from the spec as value-carrying inputs: each collaborator
call site receives the collaborator's outcome as data, and the embedded
function reproduces the source's control flow over those outcomes.
-/

/-- Modelled from the spec: the varint maximum, 2 ^ 62 - 1 (`VarInt::MAX`
of the `proto::varint` collaborator, absent from the provided sources;
the spec gives "default: varint maximum, ≈ 2⁶²−1"). -/
def VarInt.MAX : Nat := 2 ^ 62 - 1

/-- HTTP/3 application error codes produced by the core (the §6 list of
the spec). -/
inductive Code where
  | H3_GENERAL_PROTOCOL_ERROR
  | H3_INTERNAL_ERROR
  | H3_STREAM_CREATION_ERROR
  | H3_CLOSED_CRITICAL_STREAM
  | H3_FRAME_UNEXPECTED
  | H3_MISSING_SETTINGS
  | H3_REQUEST_REJECTED
  | H3_REQUEST_CANCELLED
  deriving DecidableEq

/-- Modelled from the spec: the error kinds of §7 (error.rs is absent from
the provided sources).  Transport errors, protocol errors (a code with an
optional reason), HeaderTooBig, and the failures of the two in-memory
collaborators (QPACK codec, header mapping) are kept as distinct kinds. -/
inductive H3Error where
  | transport (msg : String)
  | app (code : Code) (reason : Option String)
  | headerTooBig (actual limit : Nat)
  | qpack (msg : String)
  | headerConv (msg : String)
  deriving DecidableEq

/-- Discriminator for the HeaderTooBig error kind (error.rs `Kind::HeaderTooBig`). -/
def H3Error.isHeaderTooBig : H3Error → Bool
  | .headerTooBig _ _ => true
  | _ => false

/-- An operation outcome counts as a HeaderTooBig failure when it is an
error of that kind. -/
def exceptIsHeaderTooBig {α : Type} : Except H3Error α → Bool
  | .error e => e.isHeaderTooBig
  | .ok _ => false

/-- SharedState (connection.rs lines 24-30): the peer's advertised maximum
field section size, and the sticky terminal connection error. -/
structure SharedState where
  peer_max_field_section_size : Nat
  error : Option H3Error
  deriving DecidableEq

/-- SharedStateRef::default (connection.rs lines 46-53). -/
def SharedState.default : SharedState :=
  { peer_max_field_section_size := VarInt.MAX, error := none }

/-- ConnectionState::maybe_conn_err (connection.rs lines 58-64): return the
terminal connection error when one is recorded, the local cause otherwise. -/
def maybe_conn_err (sharedError : Option H3Error) (err : H3Error) : H3Error :=
  match sharedError with
  | some e => e
  | none => err

/-- Body bytes handed over by the frame codec. -/
abbrev Bytes := List Nat

/-- Decidable equality for collaborator outcomes. -/
def Except.decEq {ε α : Type} [DecidableEq ε] [DecidableEq α] :
    (a b : Except ε α) → Decidable (a = b)
  | .error e1, .error e2 =>
    if h : e1 = e2 then isTrue (by rw [h]) else isFalse (fun hc => h (Except.error.inj hc))
  | .error _, .ok _ => isFalse fun hc => Except.noConfusion hc
  | .ok _, .error _ => isFalse fun hc => Except.noConfusion hc
  | .ok a1, .ok a2 =>
    if h : a1 = a2 then isTrue (by rw [h]) else isFalse (fun hc => h (Except.ok.inj hc))

instance {ε α : Type} [DecidableEq ε] [DecidableEq α] : DecidableEq (Except ε α) :=
  Except.decEq

/-- Modelled from the spec: the outcome of the HTTP header-mapping
collaborator (`proto::headers::Header`, absent from the provided sources)
on one decoded field section: `Header::try_from(..)?.into_response_parts()?`
yields a status and a header list, `Header::try_from(..)?.into_fields()`
yields a trailer field list; either conversion may reject the section. -/
structure FieldSection where
  asResponseParts : Except String (Nat × List (String × String))
  asTrailerFields : Except String (List (String × String))
  deriving DecidableEq

/-- Modelled from the spec: an encoded QPACK field section carrying the
result of `qpack::decode_stateless` on it — a codec failure, or the
decoded field list together with its estimated memory size. -/
structure EncodedFieldSection where
  decodeStateless : Except String (FieldSection × Nat)
  deriving DecidableEq

/-- Modelled from the spec: a typed header list (`proto::headers::Header`)
carrying the result of `qpack::encode_stateless` on it — a codec failure,
or the encoded block together with its estimated memory size. -/
structure HeaderBlock where
  encodeStateless : Except String (EncodedFieldSection × Nat)
  deriving DecidableEq

/-- Modelled from the spec: a request head; `Header::request(method, uri,
headers)` either rejects an invalid pseudo-header set or yields the typed
header list. -/
structure RequestHead where
  header : Except String HeaderBlock
  deriving DecidableEq

/-- Setting identifiers are varints. -/
abbrev SettingId := Nat

/-- Modelled from the spec: the identifier MAX_HEADER_LIST_SIZE (varint 0x06). -/
def SettingId.MAX_HEADER_LIST_SIZE : SettingId := 6

/-- Modelled from the spec: a SETTINGS payload as an identifier-value list
(`proto::frame::Settings`, absent from the provided sources). -/
abbrev Settings := List (SettingId × Nat)

/-- Modelled from the spec: Settings::default is the empty payload. -/
def Settings.default : Settings := []

/-- Modelled from the spec: Settings::get looks up a setting identifier. -/
def Settings.get (s : Settings) (id : SettingId) : Option Nat :=
  (List.find? (fun p => p.1 == id) s).map (fun p => p.2)

/-- Modelled from the spec: Settings::insert records an identifier-value
pair in the payload. -/
def Settings.insert (s : Settings) (id : SettingId) (v : Nat) : Settings :=
  s ++ [(id, v)]

/-- HTTP/3 frames as delivered by the frame codec collaborator
(`proto::frame::Frame`).  A HEADERS frame carries its encoded field
section. -/
inductive Frame where
  | data (len : Nat)
  | headers (encoded : EncodedFieldSection)
  | cancelPush (id : Nat)
  | settings (s : Settings)
  | pushPromise
  | goaway (id : Nat)
  | maxPushId (id : Nat)
  deriving DecidableEq

/-- Discriminator for HEADERS frames. -/
def Frame.isHeaders : Frame → Bool
  | .headers _ => true
  | _ => false

/-- Discriminator for DATA frames. -/
def Frame.isData : Frame → Bool
  | .data _ => true
  | _ => false

/-- Modelled from the spec: unidirectional stream-type markers; CONTROL is
varint 0x00. -/
inductive StreamType where
  | CONTROL
  | PUSH
  | ENCODER
  | DECODER
  deriving DecidableEq

/-- One item written on a QUIC send stream by `stream::write`: a
stream-type marker or a frame. -/
inductive WireWrite where
  | streamType (t : StreamType)
  | frame (f : Frame)
  deriving DecidableEq

/-- Modelled from the spec: the frame codec collaborator wrapping one QUIC
recv stream (§6 "Frame codec contract").  `frames` holds the successive
outcomes of `poll_next` (end of list = stream EOF); `dataResults` the
successive outcomes of `poll_data`; `hasData` is the collaborator's "bytes
remain in the current DATA frame" predicate; `stopSent` records the codes
passed to `stop_sending`, in order. -/
structure FrameStreamM where
  frames : List (Except H3Error Frame)
  dataResults : List (Except H3Error (Option Bytes))
  hasData : Bool
  stopSent : List Code
  deriving DecidableEq

/-- Frame-level read: dequeue the next poll_next outcome; an exhausted list
models EOF (`Ok(None)`). -/
def FrameStreamM.poll_next (s : FrameStreamM) : Except H3Error (Option Frame) × FrameStreamM :=
  match s.frames with
  | [] => (.ok none, s)
  | .error e :: rest => (.error e, { s with frames := rest })
  | .ok f :: rest => (.ok (some f), { s with frames := rest })

/-- Body-byte read: dequeue the next poll_data outcome. -/
def FrameStreamM.poll_data (s : FrameStreamM) : Except H3Error (Option Bytes) × FrameStreamM :=
  match s.dataResults with
  | [] => (.ok none, s)
  | r :: rest => (r, { s with dataResults := rest })

/-- Record a stop_sending request with the given code. -/
def FrameStreamM.stop_sending (s : FrameStreamM) (code : Code) : FrameStreamM :=
  { s with stopSent := s.stopSent ++ [code] }

/-- RequestStream (connection.rs lines 199-216): the wrapped frame stream,
the single pending-trailers slot, the shared connection state, and the
local maximum field section size. -/
structure RequestStreamM where
  stream : FrameStreamM
  trailers : Option EncodedFieldSection
  conn_state : SharedState
  max_field_section_size : Nat
  deriving DecidableEq

/-- Body-byte read step shared by both branches of recv_data (the
`poll_data` call, connection.rs lines 246-249): a failure is promoted by
maybe_conn_err. -/
def RequestStreamM.recv_data_poll (rs : RequestStreamM) :
    Except H3Error (Option Bytes) × RequestStreamM :=
  let (d, s1) := FrameStreamM.poll_data rs.stream
  let rs1 := { rs with stream := s1 }
  match d with
  | .error e => (.error (maybe_conn_err rs1.conn_state.error e), rs1)
  | .ok data => (.ok data, rs1)

/-- RequestStream::recv_data (connection.rs lines 230-250): with no bytes
pending mid-DATA, pull the next frame; DATA switches to the body-byte
path, HEADERS is buffered in the pending-trailers slot with end-of-body
returned, EOF is end-of-body, anything else is H3_FRAME_UNEXPECTED. -/
def RequestStreamM.recv_data (rs : RequestStreamM) :
    Except H3Error (Option Bytes) × RequestStreamM :=
  if rs.stream.hasData then
    RequestStreamM.recv_data_poll rs
  else
    let (frame, s1) := FrameStreamM.poll_next rs.stream
    let rs1 := { rs with stream := s1 }
    match frame with
    | .error e => (.error (maybe_conn_err rs1.conn_state.error e), rs1)
    | .ok (some (.data _)) => RequestStreamM.recv_data_poll rs1
    | .ok (some (.headers encoded)) => (.ok none, { rs1 with trailers := some encoded })
    | .ok (some _) => (.error (.app .H3_FRAME_UNEXPECTED none), rs1)
    | .ok none => (.ok none, rs1)

/-- Decode-and-check step of recv_trailers (connection.rs lines 267-272):
decode the block statelessly, enforce the local maximum field section
size strictly, then map the fields into a trailer list. -/
def RequestStreamM.recv_trailers_decode (rs : RequestStreamM) (encoded : EncodedFieldSection) :
    Except H3Error (Option (List (String × String))) × RequestStreamM :=
  match encoded.decodeStateless with
  | .error e => (.error (.qpack e), rs)
  | .ok (fields, memSize) =>
    if memSize > rs.max_field_section_size then
      (.error (.headerTooBig memSize rs.max_field_section_size), rs)
    else
      match fields.asTrailerFields with
      | .error e => (.error (.headerConv e), rs)
      | .ok m => (.ok (some m), rs)

/-- RequestStream::recv_trailers (connection.rs lines 253-273): take the
pending-trailers slot when it is set (clearing it), otherwise pull one
frame which must be HEADERS or EOF; then decode and check. -/
def RequestStreamM.recv_trailers (rs : RequestStreamM) :
    Except H3Error (Option (List (String × String))) × RequestStreamM :=
  match rs.trailers with
  | some encoded => RequestStreamM.recv_trailers_decode { rs with trailers := none } encoded
  | none =>
    let (frame, s1) := FrameStreamM.poll_next rs.stream
    let rs1 := { rs with stream := s1 }
    match frame with
    | .error e => (.error (maybe_conn_err rs1.conn_state.error e), rs1)
    | .ok (some (.headers encoded)) => RequestStreamM.recv_trailers_decode rs1 encoded
    | .ok (some _) => (.error (.app .H3_FRAME_UNEXPECTED none), rs1)
    | .ok none => (.ok none, rs1)

/-- RequestStream::send_data (connection.rs lines 285-301).  The outcomes
of the three transport suspension points (DATA frame-header write, payload
hand-off, send readiness) are inputs; their failures surface as transport
errors and every failure is promoted by maybe_conn_err.  The returned
list holds the frame written on the stream. -/
def RequestStreamM.send_data (rs : RequestStreamM) (buf : Bytes)
    (writeResult sendResult readyResult : Except String Unit) :
    Except H3Error Unit × List WireWrite :=
  match writeResult with
  | .error e => (.error (maybe_conn_err rs.conn_state.error (.transport e)), [])
  | .ok _ =>
    match sendResult with
    | .error e =>
      (.error (maybe_conn_err rs.conn_state.error (.transport e)), [.frame (.data buf.length)])
    | .ok _ =>
      match readyResult with
      | .error e =>
        (.error (maybe_conn_err rs.conn_state.error (.transport e)), [.frame (.data buf.length)])
      | .ok _ => (.ok (), [.frame (.data buf.length)])

/-- RequestStream::send_trailers (connection.rs lines 304-322): encode the
trailer section, enforce the most recently observed peer maximum field
section size strictly, then write a HEADERS frame; a write failure
surfaces as a transport error promoted by maybe_conn_err. -/
def RequestStreamM.send_trailers (rs : RequestStreamM) (trailerBlock : HeaderBlock)
    (writeResult : Except String Unit) :
    Except H3Error Unit × List WireWrite :=
  match trailerBlock.encodeStateless with
  | .error e => (.error (.qpack e), [])
  | .ok (block, memSize) =>
    let maxMemSize := rs.conn_state.peer_max_field_section_size
    if memSize > maxMemSize then
      (.error (.headerTooBig memSize maxMemSize), [])
    else
      match writeResult with
      | .error e => (.error (maybe_conn_err rs.conn_state.error (.transport e)), [])
      | .ok _ => (.ok (), [.frame (.headers block)])

/-- RequestStream::finish (connection.rs lines 324-331): wait for send
readiness, then close the send half; each failure is a transport error
promoted by maybe_conn_err. -/
def RequestStreamM.finish (rs : RequestStreamM)
    (readyResult finishResult : Except String Unit) : Except H3Error Unit :=
  match readyResult with
  | .error e => .error (maybe_conn_err rs.conn_state.error (.transport e))
  | .ok _ =>
    match finishResult with
    | .error e => .error (maybe_conn_err rs.conn_state.error (.transport e))
    | .ok _ => .ok ()

/-- HTTP protocol versions of the http collaborator. -/
inductive HttpVersion where
  | HTTP_11
  | HTTP_2
  | HTTP_3
  deriving DecidableEq

/-- A rebuilt response head: status, header list, protocol version. -/
structure ResponseM where
  status : Nat
  headers : List (String × String)
  version : HttpVersion
  deriving DecidableEq

/-- client::RequestStream::recv_response (client.rs lines 172-202).  The
first frame must be HEADERS (EOF is H3_GENERAL_PROTOCOL_ERROR, any other
frame H3_FRAME_UNEXPECTED); an oversize decoded section triggers
stop_sending(H3_REQUEST_REJECTED) and HeaderTooBig; success rebuilds the
head with version HTTP/3.  Failures here propagate directly and are not
routed through maybe_conn_err. -/
def RequestStreamM.recv_response (rs : RequestStreamM) :
    Except H3Error ResponseM × RequestStreamM :=
  let (frame, s1) := FrameStreamM.poll_next rs.stream
  let rs1 := { rs with stream := s1 }
  match frame with
  | .error e => (.error e, rs1)
  | .ok none =>
    (.error (.app .H3_GENERAL_PROTOCOL_ERROR (some "Did not receive response headers")), rs1)
  | .ok (some (.headers encoded)) =>
    match encoded.decodeStateless with
    | .error e => (.error (.qpack e), rs1)
    | .ok (fields, memSize) =>
      if memSize > rs1.max_field_section_size then
        (.error (.headerTooBig memSize rs1.max_field_section_size),
         { rs1 with stream := FrameStreamM.stop_sending rs1.stream .H3_REQUEST_REJECTED })
      else
        match fields.asResponseParts with
        | .error e => (.error (.headerConv e), rs1)
        | .ok (status, headers) =>
          (.ok { status := status, headers := headers, version := .HTTP_3 }, rs1)
  | .ok (some _) =>
    (.error (.app .H3_FRAME_UNEXPECTED (some "First response frame is not headers")), rs1)

/-- client::RequestStream::recv_trailers (client.rs lines 208-216): run the
inner recv_trailers; on a HeaderTooBig failure, issue stop_sending with
H3_REQUEST_CANCELLED before returning the error. -/
def RequestStreamM.recv_trailers_client (rs : RequestStreamM) :
    Except H3Error (Option (List (String × String))) × RequestStreamM :=
  let (res, rs1) := RequestStreamM.recv_trailers rs
  match res with
  | .error e =>
    if e.isHeaderTooBig then
      (.error e, { rs1 with stream := FrameStreamM.stop_sending rs1.stream .H3_REQUEST_CANCELLED })
    else
      (.error e, rs1)
  | .ok v => (.ok v, rs1)

/-- Outcome of one send_request call: the result, whether the bidi stream
was opened, and the frames written on the opened stream. -/
structure SendRequestOutcome where
  result : Except H3Error RequestStreamM
  opened : Bool
  written : List WireWrite
  deriving DecidableEq

/-- SendRequest::send_request (client.rs lines 41-77): snapshot the peer
maximum field section size, map the request head (which may reject the
pseudo-header set), open a bidi stream, encode the header block, enforce
the snapshotted peer limit strictly, then write the HEADERS frame and
return a fresh request stream carrying the local limit and the shared
state.  `openResult` and `writeResult` are the transport outcomes of the
two suspension points; the wrapped QUIC stream's future traffic is not
modelled, so a successful result carries an empty frame stream. -/
def send_request (connState : SharedState) (max_field_section_size : Nat)
    (req : RequestHead) (openResult writeResult : Except String Unit) :
    SendRequestOutcome :=
  let peerMax := connState.peer_max_field_section_size
  match req.header with
  | .error e => { result := .error (.headerConv e), opened := false, written := [] }
  | .ok headers =>
    match openResult with
    | .error e => { result := .error (.transport e), opened := false, written := [] }
    | .ok _ =>
      match headers.encodeStateless with
      | .error e => { result := .error (.qpack e), opened := true, written := [] }
      | .ok (block, memSize) =>
        if memSize > peerMax then
          { result := .error (.headerTooBig memSize peerMax), opened := true, written := [] }
        else
          match writeResult with
          | .error e => { result := .error (.transport e), opened := true, written := [] }
          | .ok _ =>
            { result := .ok
                { stream := { frames := [], dataResults := [], hasData := false, stopSent := [] },
                  trailers := none,
                  conn_state := connState,
                  max_field_section_size := max_field_section_size },
              opened := true,
              written := [.frame (.headers block)] }

/-- ConnectionInner (connection.rs lines 67-80), restricted to the fields
the control-stream logic touches: the shared state, the local maximum
field section size, the peer control stream once classified (`control_recv`
holds its remaining poll_next outcomes; end of list = stream EOF), and the
got_peer_settings flag. -/
structure ConnectionInnerM where
  shared : SharedState
  max_field_section_size : Nat
  control_recv : Option (List (Except H3Error Frame))
  got_peer_settings : Bool
  deriving DecidableEq

/-- ConnectionInner::poll_control (connection.rs lines 157-190).  `none`
models Poll::Pending while the peer control stream is still unclassified;
otherwise one item is dequeued: EOF is H3_CLOSED_CRITICAL_STREAM, a frame
error propagates, a first SETTINGS records the peer maximum field section
size (defaulting to the varint maximum) and sets got_peer_settings,
CANCEL_PUSH, MAX_PUSH_ID and GOAWAY before SETTINGS are
H3_MISSING_SETTINGS, and every other frame is H3_FRAME_UNEXPECTED (the
source formats the offending frame into the reason; the model keeps the
constant prefix). -/
def ConnectionInnerM.poll_control (st : ConnectionInnerM) :
    Option (Except H3Error Frame × ConnectionInnerM) :=
  match st.control_recv with
  | none => none
  | some items =>
    match items with
    | [] => some (.error (.app .H3_CLOSED_CRITICAL_STREAM (some "control stream closed")), st)
    | .error e :: rest => some (.error e, { st with control_recv := some rest })
    | .ok frame :: rest =>
      let st1 := { st with control_recv := some rest }
      match frame, st1.got_peer_settings with
      | .settings s, false =>
        some (.ok (.settings s),
          { st1 with
            got_peer_settings := true,
            shared := { st1.shared with
              peer_max_field_section_size :=
                (Settings.get s SettingId.MAX_HEADER_LIST_SIZE).getD VarInt.MAX } })
      | .cancelPush _, false => some (.error (.app .H3_MISSING_SETTINGS none), st1)
      | .maxPushId _, false => some (.error (.app .H3_MISSING_SETTINGS none), st1)
      | .goaway _, false => some (.error (.app .H3_MISSING_SETTINGS none), st1)
      | _, _ => some (.error (.app .H3_FRAME_UNEXPECTED (some "on control stream")), st1)

/-- Modelled from the spec: a classified inbound unidirectional stream
(stream.rs's AcceptedRecvStream, absent from the provided sources); a
CONTROL stream carries its future poll_next outcomes, the other accepted
kinds are inert for this core. -/
inductive AcceptedRecvStream where
  | control (items : List (Except H3Error Frame))
  | encoder
  | decoder
  | push
  deriving DecidableEq

/-- Dispatch loop of ConnectionInner::poll_accept_recv (connection.rs lines
145-152): each resolved stream is matched; a CONTROL stream is stored in
`control_recv` unconditionally, every other kind is dropped. -/
def ConnectionInnerM.dispatch_resolved (st : ConnectionInnerM)
    (resolved : List AcceptedRecvStream) : ConnectionInnerM :=
  resolved.foldl
    (fun acc s =>
      match s with
      | .control items => { acc with control_recv := some items }
      | _ => acc)
    st

/-- Initialization writes of ConnectionInner::new (connection.rs lines
86-114), given that the control-stream open and both writes succeed: first
the CONTROL stream-type marker, then a SETTINGS frame whose payload is the
default payload with MAX_HEADER_LIST_SIZE set to the local maximum field
section size. -/
def ConnectionInner.new_writes (max_field_section_size : Nat) : List WireWrite :=
  let settings :=
    Settings.insert Settings.default SettingId.MAX_HEADER_LIST_SIZE max_field_section_size
  [.streamType .CONTROL, .frame (.settings settings)]

/-- Builder (client.rs lines 121-127): the one configuration knob. -/
structure Builder where
  max_field_section_size : Nat
  deriving DecidableEq

/-- Builder::new (client.rs lines 134-139): the default maximum field
section size is the varint maximum. -/
def Builder.new : Builder :=
  { max_field_section_size := VarInt.MAX }

/-- C8: for every connection, the first write on the outbound control
stream is the CONTROL stream-type marker and the first frame written is
SETTINGS carrying MAX_HEADER_LIST_SIZE equal to the configured local
max_field_section_size; the builder's default for that limit is the varint
maximum 2 ^ 62 - 1. -/
theorem C8_control_stream_init (m : Nat) :
    ConnectionInner.new_writes m
        = [.streamType .CONTROL,
           .frame (.settings
             (Settings.insert Settings.default SettingId.MAX_HEADER_LIST_SIZE m))]
      ∧ Settings.get (Settings.insert Settings.default SettingId.MAX_HEADER_LIST_SIZE m)
          SettingId.MAX_HEADER_LIST_SIZE = some m
      ∧ Builder.new.max_field_section_size = VarInt.MAX
      ∧ VarInt.MAX = 2 ^ 62 - 1 := by
  refine ⟨rfl, ?_, rfl, rfl⟩
  simp [Settings.get, Settings.insert, Settings.default, List.find?]

/-- C10: when the first peer SETTINGS frame contains no
MAX_HEADER_LIST_SIZE entry, poll_control succeeds with that frame, sets
the shared peer_max_field_section_size to the varint maximum — which is
also its initial value — and sets got_peer_settings to true. -/
theorem C10_settings_without_max_header_list_size
    (st : ConnectionInnerM) (s : Settings) (rest : List (Except H3Error Frame))
    (hgot : st.got_peer_settings = false)
    (hc : st.control_recv = some (.ok (.settings s) :: rest))
    (hget : Settings.get s SettingId.MAX_HEADER_LIST_SIZE = none) :
    (ConnectionInnerM.poll_control st).map (fun p => p.1) = some (.ok (.settings s))
      ∧ (ConnectionInnerM.poll_control st).map (fun p => p.2.got_peer_settings) = some true
      ∧ (ConnectionInnerM.poll_control st).map
          (fun p => p.2.shared.peer_max_field_section_size) = some VarInt.MAX
      ∧ SharedState.default.peer_max_field_section_size = VarInt.MAX := by
  refine ⟨?_, ?_, ?_, rfl⟩ <;>
    simp [ConnectionInnerM.poll_control, hc, hgot, hget]

/-- C10 witness: a concrete first SETTINGS frame with an empty payload. -/
theorem C10_settings_without_max_header_list_size_witness :
    (ConnectionInnerM.poll_control
        { shared := SharedState.default, max_field_section_size := 100,
          control_recv := some [.ok (.settings [])], got_peer_settings := false }).map
      (fun p => p.1) = some (.ok (.settings []))
      ∧ (ConnectionInnerM.poll_control
            { shared := SharedState.default, max_field_section_size := 100,
              control_recv := some [.ok (.settings [])], got_peer_settings := false }).map
          (fun p => p.2.got_peer_settings) = some true
      ∧ (ConnectionInnerM.poll_control
            { shared := SharedState.default, max_field_section_size := 100,
              control_recv := some [.ok (.settings [])], got_peer_settings := false }).map
          (fun p => p.2.shared.peer_max_field_section_size) = some VarInt.MAX
      ∧ SharedState.default.peer_max_field_section_size = VarInt.MAX :=
  C10_settings_without_max_header_list_size
    { shared := SharedState.default, max_field_section_size := 100,
      control_recv := some [.ok (.settings [])], got_peer_settings := false }
    [] [] rfl rfl rfl

/-- Remaining control-stream items of an already-stored peer control stream. -/
def ctrlItemsFirst : List (Except H3Error Frame) := [.ok (.settings [])]

/-- Control-stream items carried by a second inbound CONTROL stream. -/
def ctrlItemsSecond : List (Except H3Error Frame) := [.ok (.goaway 0)]

/-- Driver state in which the peer control stream has already been stored. -/
def stWithControl : ConnectionInnerM :=
  { shared := SharedState.default, max_field_section_size := 100,
    control_recv := some ctrlItemsFirst, got_peer_settings := true }

/-- C3: the dispatch loop of poll_accept_recv stores a classified CONTROL
stream unconditionally, so with a peer control stream already stored,
dispatching a second inbound CONTROL stream silently replaces the stored
stream and reports no H3_STREAM_CREATION_ERROR — against the claim and
spec invariant 2 (dispatch_resolved is total and returns only a state, so
no error of any kind is possible on this path). -/
theorem C3_second_control_stream_replaces :
    stWithControl.control_recv = some ctrlItemsFirst
      ∧ (ConnectionInnerM.dispatch_resolved stWithControl
          [.control ctrlItemsSecond]).control_recv = some ctrlItemsSecond
      ∧ ctrlItemsFirst ≠ ctrlItemsSecond := by
  refine ⟨rfl, rfl, by decide⟩

/-- Driver state awaiting the peer SETTINGS whose first control frame is DATA. -/
def stAwaitingSettingsData : ConnectionInnerM :=
  { shared := SharedState.default, max_field_section_size := 100,
    control_recv := some [.ok (.data 5)], got_peer_settings := false }

/-- C2: counterexample.  With got_peer_settings still false, the first
frame dequeued by poll_control is DATA — a frame other than SETTINGS —
and the claim says the call fails with H3_MISSING_SETTINGS; it fails with
H3_FRAME_UNEXPECTED instead (only CANCEL_PUSH, MAX_PUSH_ID and GOAWAY hit
the H3_MISSING_SETTINGS arm). -/
theorem C2_data_frame_not_missing_settings :
    stAwaitingSettingsData.got_peer_settings = false
      ∧ (ConnectionInnerM.poll_control stAwaitingSettingsData).map (fun p => p.1)
          = some (.error (.app .H3_FRAME_UNEXPECTED (some "on control stream")))
      ∧ H3Error.app .H3_FRAME_UNEXPECTED (some "on control stream")
          ≠ H3Error.app .H3_MISSING_SETTINGS none := by
  refine ⟨rfl, rfl, by decide⟩

/-- C2 (amended): with got_peer_settings still false, a first dequeued
frame of kind CANCEL_PUSH, MAX_PUSH_ID or GOAWAY makes poll_control fail
with H3_MISSING_SETTINGS, while any other non-SETTINGS first frame (for
instance DATA or HEADERS) fails with H3_FRAME_UNEXPECTED; in every case
exactly the offending frame is consumed and no further one. -/
theorem C2_missing_settings
    (st1 st2 st3 st4 st5 : ConnectionInnerM) (id len : Nat) (enc : EncodedFieldSection)
    (r1 r2 r3 r4 r5 : List (Except H3Error Frame))
    (hg1 : st1.got_peer_settings = false)
    (hc1 : st1.control_recv = some (.ok (.cancelPush id) :: r1))
    (hg2 : st2.got_peer_settings = false)
    (hc2 : st2.control_recv = some (.ok (.maxPushId id) :: r2))
    (hg3 : st3.got_peer_settings = false)
    (hc3 : st3.control_recv = some (.ok (.goaway id) :: r3))
    (hg4 : st4.got_peer_settings = false)
    (hc4 : st4.control_recv = some (.ok (.data len) :: r4))
    (hg5 : st5.got_peer_settings = false)
    (hc5 : st5.control_recv = some (.ok (.headers enc) :: r5)) :
    ((ConnectionInnerM.poll_control st1).map (fun p => p.1)
          = some (.error (.app .H3_MISSING_SETTINGS none))
        ∧ (ConnectionInnerM.poll_control st1).map (fun p => p.2.control_recv)
          = some (some r1))
      ∧ ((ConnectionInnerM.poll_control st2).map (fun p => p.1)
            = some (.error (.app .H3_MISSING_SETTINGS none))
          ∧ (ConnectionInnerM.poll_control st2).map (fun p => p.2.control_recv)
            = some (some r2))
      ∧ ((ConnectionInnerM.poll_control st3).map (fun p => p.1)
            = some (.error (.app .H3_MISSING_SETTINGS none))
          ∧ (ConnectionInnerM.poll_control st3).map (fun p => p.2.control_recv)
            = some (some r3))
      ∧ ((ConnectionInnerM.poll_control st4).map (fun p => p.1)
            = some (.error (.app .H3_FRAME_UNEXPECTED (some "on control stream")))
          ∧ (ConnectionInnerM.poll_control st4).map (fun p => p.2.control_recv)
            = some (some r4))
      ∧ ((ConnectionInnerM.poll_control st5).map (fun p => p.1)
            = some (.error (.app .H3_FRAME_UNEXPECTED (some "on control stream")))
          ∧ (ConnectionInnerM.poll_control st5).map (fun p => p.2.control_recv)
            = some (some r5)) := by
  refine ⟨⟨?_, ?_⟩, ⟨?_, ?_⟩, ⟨?_, ?_⟩, ⟨?_, ?_⟩, ⟨?_, ?_⟩⟩ <;>
    simp [ConnectionInnerM.poll_control, hc1, hg1, hc2, hg2, hc3, hg3, hc4, hg4, hc5, hg5]

/-- Driver state awaiting peer SETTINGS with a given first control item. -/
def stAwaiting (item : Except H3Error Frame) : ConnectionInnerM :=
  { shared := SharedState.default, max_field_section_size := 100,
    control_recv := some [item], got_peer_settings := false }

/-- C2 witness: the amended property at concrete driver states whose first
control frame is CANCEL_PUSH, MAX_PUSH_ID, GOAWAY, DATA and HEADERS. -/
theorem C2_missing_settings_witness :
    ((ConnectionInnerM.poll_control (stAwaiting (.ok (.cancelPush 0)))).map (fun p => p.1)
          = some (.error (.app .H3_MISSING_SETTINGS none))
        ∧ (ConnectionInnerM.poll_control (stAwaiting (.ok (.cancelPush 0)))).map
            (fun p => p.2.control_recv) = some (some []))
      ∧ ((ConnectionInnerM.poll_control (stAwaiting (.ok (.maxPushId 0)))).map (fun p => p.1)
            = some (.error (.app .H3_MISSING_SETTINGS none))
          ∧ (ConnectionInnerM.poll_control (stAwaiting (.ok (.maxPushId 0)))).map
              (fun p => p.2.control_recv) = some (some []))
      ∧ ((ConnectionInnerM.poll_control (stAwaiting (.ok (.goaway 0)))).map (fun p => p.1)
            = some (.error (.app .H3_MISSING_SETTINGS none))
          ∧ (ConnectionInnerM.poll_control (stAwaiting (.ok (.goaway 0)))).map
              (fun p => p.2.control_recv) = some (some []))
      ∧ ((ConnectionInnerM.poll_control (stAwaiting (.ok (.data 5)))).map (fun p => p.1)
            = some (.error (.app .H3_FRAME_UNEXPECTED (some "on control stream")))
          ∧ (ConnectionInnerM.poll_control (stAwaiting (.ok (.data 5)))).map
              (fun p => p.2.control_recv) = some (some []))
      ∧ ((ConnectionInnerM.poll_control
              (stAwaiting (.ok (.headers { decodeStateless := .error "bad" })))).map
            (fun p => p.1)
            = some (.error (.app .H3_FRAME_UNEXPECTED (some "on control stream")))
          ∧ (ConnectionInnerM.poll_control
                (stAwaiting (.ok (.headers { decodeStateless := .error "bad" })))).map
              (fun p => p.2.control_recv) = some (some [])) :=
  C2_missing_settings
    (stAwaiting (.ok (.cancelPush 0))) (stAwaiting (.ok (.maxPushId 0)))
    (stAwaiting (.ok (.goaway 0))) (stAwaiting (.ok (.data 5)))
    (stAwaiting (.ok (.headers { decodeStateless := .error "bad" })))
    0 5 { decodeStateless := .error "bad" }
    [] [] [] [] []
    rfl rfl rfl rfl rfl rfl rfl rfl rfl rfl

/-- C4: when the encoded request-header block's estimated size strictly
exceeds the snapshotted peer_max_field_section_size, send_request fails
with HeaderTooBig carrying that size and that limit and writes nothing —
in particular no HEADERS frame — on the opened stream. -/
theorem C4_send_request_oversize
    (connState : SharedState) (localMax m : Nat) (req : RequestHead)
    (hb : HeaderBlock) (block : EncodedFieldSection)
    (writeRes : Except String Unit)
    (hreq : req.header = .ok hb)
    (henc : hb.encodeStateless = .ok (block, m))
    (hm : m > connState.peer_max_field_section_size) :
    (send_request connState localMax req (.ok ()) writeRes).result
        = .error (.headerTooBig m connState.peer_max_field_section_size)
      ∧ (send_request connState localMax req (.ok ()) writeRes).written = [] := by
  constructor <;> simp [send_request, hreq, henc, hm]

/-- An encoded block whose stateless decoding succeeds with the given
fields and estimated size. -/
def encOf (fields : FieldSection) (m : Nat) : EncodedFieldSection :=
  { decodeStateless := .ok (fields, m) }

/-- A field section that converts cleanly both as a response head and as
trailer fields. -/
def okFields : FieldSection :=
  { asResponseParts := .ok (200, []), asTrailerFields := .ok [] }

/-- A request head whose mapping succeeds and encodes to estimated size 4096. -/
def bigRequest : RequestHead :=
  { header := .ok { encodeStateless := .ok (encOf okFields 4096, 4096) } }

/-- C4 witness: peer limit 64, encoded estimated size 4096 (scenario 3 of
the spec): HeaderTooBig with actual 4096 and limit 64, nothing written. -/
theorem C4_send_request_oversize_witness :
    (send_request { peer_max_field_section_size := 64, error := none } 100 bigRequest
        (.ok ()) (.ok ())).result = .error (.headerTooBig 4096 64)
      ∧ (send_request { peer_max_field_section_size := 64, error := none } 100 bigRequest
          (.ok ()) (.ok ())).written = [] :=
  C4_send_request_oversize { peer_max_field_section_size := 64, error := none } 100 4096
    bigRequest { encodeStateless := .ok (encOf okFields 4096, 4096) } (encOf okFields 4096)
    (.ok ()) rfl rfl (by decide)

/-- C5: recv_response fails with H3_GENERAL_PROTOCOL_ERROR when the stream
ends before any frame, with H3_FRAME_UNEXPECTED when the first frame is
not HEADERS, and — when the decoded field section's reported memory size
exceeds the local max_field_section_size — issues stop_sending with
H3_REQUEST_REJECTED and fails with HeaderTooBig; when the first frame is
HEADERS, decoding succeeds, the size check passes and the response
conversion succeeds, it returns a response head with protocol version
HTTP/3. -/
theorem C5_recv_response
    (rs1 rs2 rs3 rs4 : RequestStreamM) (f : Frame)
    (enc3 enc4 : EncodedFieldSection) (fields3 fields4 : FieldSection) (m3 m4 : Nat)
    (rest2 rest3 rest4 : List (Except H3Error Frame))
    (status : Nat) (headers : List (String × String))
    (h1 : rs1.stream.frames = [])
    (h2 : rs2.stream.frames = .ok f :: rest2) (hf : f.isHeaders = false)
    (h3 : rs3.stream.frames = .ok (.headers enc3) :: rest3)
    (hdec3 : enc3.decodeStateless = .ok (fields3, m3))
    (hm3 : m3 > rs3.max_field_section_size)
    (h4 : rs4.stream.frames = .ok (.headers enc4) :: rest4)
    (hdec4 : enc4.decodeStateless = .ok (fields4, m4))
    (hm4 : ¬ m4 > rs4.max_field_section_size)
    (hconv4 : fields4.asResponseParts = .ok (status, headers)) :
    (RequestStreamM.recv_response rs1).1
        = .error (.app .H3_GENERAL_PROTOCOL_ERROR (some "Did not receive response headers"))
      ∧ (RequestStreamM.recv_response rs2).1
        = .error (.app .H3_FRAME_UNEXPECTED (some "First response frame is not headers"))
      ∧ (RequestStreamM.recv_response rs3).1
        = .error (.headerTooBig m3 rs3.max_field_section_size)
      ∧ (RequestStreamM.recv_response rs3).2.stream.stopSent
        = rs3.stream.stopSent ++ [Code.H3_REQUEST_REJECTED]
      ∧ (RequestStreamM.recv_response rs4).1
        = .ok { status := status, headers := headers, version := .HTTP_3 } := by
  refine ⟨?_, ?_, ?_, ?_, ?_⟩
  · simp [RequestStreamM.recv_response, FrameStreamM.poll_next, h1]
  · cases f <;>
      simp_all [RequestStreamM.recv_response, FrameStreamM.poll_next, Frame.isHeaders]
  · simp [RequestStreamM.recv_response, FrameStreamM.poll_next, h3, hdec3, hm3]
  · simp [RequestStreamM.recv_response, FrameStreamM.poll_next, FrameStreamM.stop_sending,
      h3, hdec3, hm3]
  · simp [RequestStreamM.recv_response, FrameStreamM.poll_next, h4, hdec4, hm4, hconv4]

/-- A request stream wrapping the given frame items, with an empty
pending-trailers slot, no connection error, and local limit 64. -/
def rsWith (items : List (Except H3Error Frame)) : RequestStreamM :=
  { stream := { frames := items, dataResults := [], hasData := false, stopSent := [] },
    trailers := none,
    conn_state := { peer_max_field_section_size := 64, error := none },
    max_field_section_size := 64 }

/-- C5 witness: the four behaviours at concrete streams — EOF before any
frame, a first DATA frame, an oversize decoded section (size 4096 against
limit 64, scenario 4 of the spec), and a clean 200 response. -/
theorem C5_recv_response_witness :
    (RequestStreamM.recv_response (rsWith [])).1
        = .error (.app .H3_GENERAL_PROTOCOL_ERROR (some "Did not receive response headers"))
      ∧ (RequestStreamM.recv_response (rsWith [.ok (.data 3)])).1
        = .error (.app .H3_FRAME_UNEXPECTED (some "First response frame is not headers"))
      ∧ (RequestStreamM.recv_response (rsWith [.ok (.headers (encOf okFields 4096))])).1
        = .error (.headerTooBig 4096 (rsWith [.ok (.headers (encOf okFields 4096))]).max_field_section_size)
      ∧ (RequestStreamM.recv_response (rsWith [.ok (.headers (encOf okFields 4096))])).2.stream.stopSent
        = (rsWith [.ok (.headers (encOf okFields 4096))]).stream.stopSent
            ++ [Code.H3_REQUEST_REJECTED]
      ∧ (RequestStreamM.recv_response (rsWith [.ok (.headers (encOf okFields 10))])).1
        = .ok { status := 200, headers := [], version := .HTTP_3 } :=
  C5_recv_response (rsWith []) (rsWith [.ok (.data 3)])
    (rsWith [.ok (.headers (encOf okFields 4096))]) (rsWith [.ok (.headers (encOf okFields 10))])
    (.data 3) (encOf okFields 4096) (encOf okFields 10) okFields okFields 4096 10
    [] [] [] 200 []
    rfl rfl rfl rfl rfl (by decide) rfl rfl (by decide) rfl

/-- C6: when recv_data, with no bytes pending mid-DATA, pulls a HEADERS
frame, it stores the encoded block in the single pending-trailers slot and
returns end-of-body; the following recv_trailers call decodes that
buffered block without pulling another frame and clears the slot; a pulled
frame that is neither DATA, HEADERS nor EOF makes recv_data fail with
H3_FRAME_UNEXPECTED; and EOF returns end-of-body. -/
theorem C6_trailer_buffering
    (rs1 rs2 rs3 : RequestStreamM) (enc : EncodedFieldSection) (f : Frame)
    (fields : FieldSection) (m : Nat) (tmap : List (String × String))
    (rest rest2 : List (Except H3Error Frame))
    (h1d : rs1.stream.hasData = false)
    (h1f : rs1.stream.frames = .ok (.headers enc) :: rest)
    (hdec : enc.decodeStateless = .ok (fields, m))
    (hm : ¬ m > rs1.max_field_section_size)
    (htr : fields.asTrailerFields = .ok tmap)
    (h2d : rs2.stream.hasData = false)
    (h2f : rs2.stream.frames = .ok f :: rest2)
    (hfh : f.isHeaders = false) (hfd : f.isData = false)
    (h3d : rs3.stream.hasData = false)
    (h3f : rs3.stream.frames = []) :
    (RequestStreamM.recv_data rs1).1 = .ok none
      ∧ (RequestStreamM.recv_data rs1).2.trailers = some enc
      ∧ (RequestStreamM.recv_data rs1).2.stream.frames = rest
      ∧ (RequestStreamM.recv_trailers (RequestStreamM.recv_data rs1).2).1 = .ok (some tmap)
      ∧ (RequestStreamM.recv_trailers (RequestStreamM.recv_data rs1).2).2.stream.frames = rest
      ∧ (RequestStreamM.recv_trailers (RequestStreamM.recv_data rs1).2).2.trailers = none
      ∧ (RequestStreamM.recv_data rs2).1 = .error (.app .H3_FRAME_UNEXPECTED none)
      ∧ (RequestStreamM.recv_data rs3).1 = .ok none := by
  refine ⟨?_, ?_, ?_, ?_, ?_, ?_, ?_, ?_⟩
  · simp [RequestStreamM.recv_data, FrameStreamM.poll_next, h1d, h1f]
  · simp [RequestStreamM.recv_data, FrameStreamM.poll_next, h1d, h1f]
  · simp [RequestStreamM.recv_data, FrameStreamM.poll_next, h1d, h1f]
  · simp [RequestStreamM.recv_data, RequestStreamM.recv_trailers,
      RequestStreamM.recv_trailers_decode, FrameStreamM.poll_next, h1d, h1f, hdec, hm, htr]
  · simp [RequestStreamM.recv_data, RequestStreamM.recv_trailers,
      RequestStreamM.recv_trailers_decode, FrameStreamM.poll_next, h1d, h1f, hdec, hm, htr]
  · simp [RequestStreamM.recv_data, RequestStreamM.recv_trailers,
      RequestStreamM.recv_trailers_decode, FrameStreamM.poll_next, h1d, h1f, hdec, hm, htr]
  · cases f <;>
      simp_all [RequestStreamM.recv_data, FrameStreamM.poll_next, Frame.isHeaders, Frame.isData]
  · simp [RequestStreamM.recv_data, FrameStreamM.poll_next, h3d, h3f]

/-- C6 witness: a HEADERS frame buffered as trailers at size 10 against
limit 64, then consumed by recv_trailers; an unexpected GOAWAY frame; and
EOF. -/
theorem C6_trailer_buffering_witness :
    (RequestStreamM.recv_data (rsWith [.ok (.headers (encOf okFields 10))])).1 = .ok none
      ∧ (RequestStreamM.recv_data
          (rsWith [.ok (.headers (encOf okFields 10))])).2.trailers
        = some (encOf okFields 10)
      ∧ (RequestStreamM.recv_data
          (rsWith [.ok (.headers (encOf okFields 10))])).2.stream.frames = []
      ∧ (RequestStreamM.recv_trailers
          (RequestStreamM.recv_data (rsWith [.ok (.headers (encOf okFields 10))])).2).1
        = .ok (some [])
      ∧ (RequestStreamM.recv_trailers
          (RequestStreamM.recv_data
            (rsWith [.ok (.headers (encOf okFields 10))])).2).2.stream.frames = []
      ∧ (RequestStreamM.recv_trailers
          (RequestStreamM.recv_data
            (rsWith [.ok (.headers (encOf okFields 10))])).2).2.trailers = none
      ∧ (RequestStreamM.recv_data (rsWith [.ok (.goaway 0)])).1
        = .error (.app .H3_FRAME_UNEXPECTED none)
      ∧ (RequestStreamM.recv_data (rsWith [])).1 = .ok none :=
  C6_trailer_buffering (rsWith [.ok (.headers (encOf okFields 10))]) (rsWith [.ok (.goaway 0)])
    (rsWith []) (encOf okFields 10) (.goaway 0) okFields 10 [] [] []
    rfl rfl rfl (by decide) rfl rfl rfl rfl rfl rfl rfl

/-- C7: for every public client recv_trailers call whose decoded trailer
block's estimated size exceeds the local max_field_section_size — whether
the block came from the pending-trailers slot or was pulled as a HEADERS
frame — the call fails with HeaderTooBig and stop_sending with
H3_REQUEST_CANCELLED is issued on the stream. -/
theorem C7_trailers_too_big
    (rs1 rs2 : RequestStreamM) (enc : EncodedFieldSection) (fields : FieldSection)
    (m : Nat) (rest : List (Except H3Error Frame))
    (h1t : rs1.trailers = some enc)
    (hdec : enc.decodeStateless = .ok (fields, m))
    (hm1 : m > rs1.max_field_section_size)
    (h2t : rs2.trailers = none)
    (h2f : rs2.stream.frames = .ok (.headers enc) :: rest)
    (hm2 : m > rs2.max_field_section_size) :
    (RequestStreamM.recv_trailers_client rs1).1
        = .error (.headerTooBig m rs1.max_field_section_size)
      ∧ (RequestStreamM.recv_trailers_client rs1).2.stream.stopSent
        = rs1.stream.stopSent ++ [Code.H3_REQUEST_CANCELLED]
      ∧ (RequestStreamM.recv_trailers_client rs2).1
        = .error (.headerTooBig m rs2.max_field_section_size)
      ∧ (RequestStreamM.recv_trailers_client rs2).2.stream.stopSent
        = rs2.stream.stopSent ++ [Code.H3_REQUEST_CANCELLED] := by
  refine ⟨?_, ?_, ?_, ?_⟩ <;>
    simp [RequestStreamM.recv_trailers_client, RequestStreamM.recv_trailers,
      RequestStreamM.recv_trailers_decode, FrameStreamM.poll_next, FrameStreamM.stop_sending,
      H3Error.isHeaderTooBig, h1t, hdec, hm1, h2t, h2f, hm2]

/-- A request stream with the given pending-trailers slot, no queued
frames, no connection error, and local limit 64. -/
def rsWithSlot (enc : EncodedFieldSection) : RequestStreamM :=
  { stream := { frames := [], dataResults := [], hasData := false, stopSent := [] },
    trailers := some enc,
    conn_state := { peer_max_field_section_size := 64, error := none },
    max_field_section_size := 64 }

/-- C7 witness: a trailer block of estimated size 4096 against local limit
64, once from the pending-trailers slot and once pulled as a HEADERS
frame. -/
theorem C7_trailers_too_big_witness :
    (RequestStreamM.recv_trailers_client (rsWithSlot (encOf okFields 4096))).1
        = .error (.headerTooBig 4096 (rsWithSlot (encOf okFields 4096)).max_field_section_size)
      ∧ (RequestStreamM.recv_trailers_client (rsWithSlot (encOf okFields 4096))).2.stream.stopSent
        = (rsWithSlot (encOf okFields 4096)).stream.stopSent ++ [Code.H3_REQUEST_CANCELLED]
      ∧ (RequestStreamM.recv_trailers_client (rsWith [.ok (.headers (encOf okFields 4096))])).1
        = .error (.headerTooBig 4096
            (rsWith [.ok (.headers (encOf okFields 4096))]).max_field_section_size)
      ∧ (RequestStreamM.recv_trailers_client
            (rsWith [.ok (.headers (encOf okFields 4096))])).2.stream.stopSent
        = (rsWith [.ok (.headers (encOf okFields 4096))]).stream.stopSent
            ++ [Code.H3_REQUEST_CANCELLED] :=
  C7_trailers_too_big (rsWithSlot (encOf okFields 4096))
    (rsWith [.ok (.headers (encOf okFields 4096))]) (encOf okFields 4096) okFields 4096 []
    rfl rfl (by decide) rfl rfl (by decide)

/-- C9: every field-section size limit is enforced with a strict
comparison: when the estimated size is exactly equal to the applicable
limit — the peer's for send_request and send_trailers, the local one for
recv_response and recv_trailers — the operation does not fail with
HeaderTooBig (for the send operations, with no terminal connection error
recorded that could be promoted in its place). -/
theorem C9_limits_strict
    (connState : SharedState) (localMax : Nat) (req : RequestHead) (hb : HeaderBlock)
    (block : EncodedFieldSection) (openRes writeRes wr2 : Except String Unit)
    (rs2 rs3 rs4 : RequestStreamM) (tb : HeaderBlock) (enc3 enc4 : EncodedFieldSection)
    (f3 f4 : FieldSection) (rest3 : List (Except H3Error Frame))
    (hreq : req.header = .ok hb)
    (henc : hb.encodeStateless = .ok (block, connState.peer_max_field_section_size))
    (h2e : rs2.conn_state.error = none)
    (henc2 : tb.encodeStateless = .ok (block, rs2.conn_state.peer_max_field_section_size))
    (h3f : rs3.stream.frames = .ok (.headers enc3) :: rest3)
    (hdec3 : enc3.decodeStateless = .ok (f3, rs3.max_field_section_size))
    (h4t : rs4.trailers = some enc4)
    (hdec4 : enc4.decodeStateless = .ok (f4, rs4.max_field_section_size)) :
    exceptIsHeaderTooBig (send_request connState localMax req openRes writeRes).result = false
      ∧ exceptIsHeaderTooBig (RequestStreamM.send_trailers rs2 tb wr2).1 = false
      ∧ exceptIsHeaderTooBig (RequestStreamM.recv_response rs3).1 = false
      ∧ exceptIsHeaderTooBig (RequestStreamM.recv_trailers_client rs4).1 = false := by
  refine ⟨?_, ?_, ?_, ?_⟩
  · cases openRes <;> cases writeRes <;>
      simp [send_request, hreq, henc, exceptIsHeaderTooBig, H3Error.isHeaderTooBig,
        lt_self_iff_false]
  · cases wr2 <;>
      simp [RequestStreamM.send_trailers, henc2, h2e, maybe_conn_err, exceptIsHeaderTooBig,
        H3Error.isHeaderTooBig, lt_self_iff_false]
  · rcases hp : f3.asResponseParts with e | pr <;>
      simp [RequestStreamM.recv_response, FrameStreamM.poll_next, h3f, hdec3, hp,
        exceptIsHeaderTooBig, H3Error.isHeaderTooBig, lt_self_iff_false]
  · rcases hp : f4.asTrailerFields with e | tm <;>
      simp [RequestStreamM.recv_trailers_client, RequestStreamM.recv_trailers,
        RequestStreamM.recv_trailers_decode, h4t, hdec4, hp, exceptIsHeaderTooBig,
        H3Error.isHeaderTooBig, lt_self_iff_false]

/-- A request head whose mapping succeeds and encodes to estimated size
exactly 64. -/
def borderRequest : RequestHead :=
  { header := .ok { encodeStateless := .ok (encOf okFields 64, 64) } }

/-- C9 witness: estimated size exactly 64 against limit 64 on all four
operations: none of them fails with HeaderTooBig. -/
theorem C9_limits_strict_witness :
    exceptIsHeaderTooBig (send_request { peer_max_field_section_size := 64, error := none }
        100 borderRequest (.ok ()) (.ok ())).result = false
      ∧ exceptIsHeaderTooBig (RequestStreamM.send_trailers (rsWith [])
          { encodeStateless := .ok (encOf okFields 64, 64) } (.ok ())).1 = false
      ∧ exceptIsHeaderTooBig (RequestStreamM.recv_response
          (rsWith [.ok (.headers (encOf okFields 64))])).1 = false
      ∧ exceptIsHeaderTooBig (RequestStreamM.recv_trailers_client
          (rsWithSlot (encOf okFields 64))).1 = false :=
  C9_limits_strict { peer_max_field_section_size := 64, error := none } 100 borderRequest
    { encodeStateless := .ok (encOf okFields 64, 64) } (encOf okFields 64)
    (.ok ()) (.ok ()) (.ok ())
    (rsWith []) (rsWith [.ok (.headers (encOf okFields 64))]) (rsWithSlot (encOf okFields 64))
    { encodeStateless := .ok (encOf okFields 64, 64) } (encOf okFields 64) (encOf okFields 64)
    okFields okFields []
    rfl rfl rfl rfl rfl rfl rfl rfl

/-- A terminal connection error recorded in shared state. -/
def connErrC1 : H3Error := .app .H3_CLOSED_CRITICAL_STREAM (some "connection closed")

/-- A request stream whose shared state is poisoned with connErrC1 and
whose next frame-level read fails with a local transport cause. -/
def rsPoisoned : RequestStreamM :=
  { stream := { frames := [.error (.transport "reset")], dataResults := [],
                hasData := false, stopSent := [] },
    trailers := none,
    conn_state := { peer_max_field_section_size := 100, error := some connErrC1 },
    max_field_section_size := 100 }

/-- C1: counterexample.  recv_response is one of the listed per-request
stream operations; here the shared connection state holds a terminal
error and the operation fails, yet it returns the local transport cause
rather than the terminal connection error — recv_response never consults
maybe_conn_err. -/
theorem C1_recv_response_ignores_conn_err :
    rsPoisoned.conn_state.error = some connErrC1
      ∧ (RequestStreamM.recv_response rsPoisoned).1 = .error (.transport "reset")
      ∧ H3Error.transport "reset" ≠ connErrC1 :=
  ⟨rfl, rfl, by decide⟩

/-- C1 (amended): the transport- and frame-level failure paths of
recv_data, recv_trailers, send_data, send_trailers and finish consult
maybe_conn_err, so when the shared state holds a terminal error each of
them returns that error rather than its local cause; recv_response — and
the locally detected protocol and size failures of the other operations —
are excluded, as they propagate the local cause. -/
theorem C1_conn_err_promotion
    (ce e : H3Error) (em : String)
    (rs1 rs2 rs3 : RequestStreamM) (rest : List (Except H3Error Frame))
    (buf : Bytes) (tb : HeaderBlock) (block : EncodedFieldSection) (m : Nat)
    (sr rr fr : Except String Unit)
    (h1e : rs1.conn_state.error = some ce)
    (h1d : rs1.stream.hasData = false)
    (h1f : rs1.stream.frames = .error e :: rest)
    (h2e : rs2.conn_state.error = some ce)
    (h2t : rs2.trailers = none)
    (h2f : rs2.stream.frames = .error e :: rest)
    (h3e : rs3.conn_state.error = some ce)
    (henc : tb.encodeStateless = .ok (block, m))
    (hm : ¬ m > rs3.conn_state.peer_max_field_section_size) :
    (RequestStreamM.recv_data rs1).1 = .error ce
      ∧ (RequestStreamM.recv_trailers rs2).1 = .error ce
      ∧ (RequestStreamM.send_data rs3 buf (.error em) sr rr).1 = .error ce
      ∧ (RequestStreamM.send_data rs3 buf (.ok ()) (.error em) rr).1 = .error ce
      ∧ (RequestStreamM.send_data rs3 buf (.ok ()) (.ok ()) (.error em)).1 = .error ce
      ∧ (RequestStreamM.send_trailers rs3 tb (.error em)).1 = .error ce
      ∧ RequestStreamM.finish rs3 (.error em) fr = .error ce
      ∧ RequestStreamM.finish rs3 (.ok ()) (.error em) = .error ce := by
  refine ⟨?_, ?_, ?_, ?_, ?_, ?_, ?_, ?_⟩
  · simp [RequestStreamM.recv_data, FrameStreamM.poll_next, h1d, h1f, h1e, maybe_conn_err]
  · simp [RequestStreamM.recv_trailers, FrameStreamM.poll_next, h2t, h2f, h2e, maybe_conn_err]
  · simp [RequestStreamM.send_data, h3e, maybe_conn_err]
  · simp [RequestStreamM.send_data, h3e, maybe_conn_err]
  · simp [RequestStreamM.send_data, h3e, maybe_conn_err]
  · simp [RequestStreamM.send_trailers, henc, hm, h3e, maybe_conn_err]
  · simp [RequestStreamM.finish, h3e, maybe_conn_err]
  · simp [RequestStreamM.finish, h3e, maybe_conn_err]

/-- A trailer header list that encodes to estimated size 10. -/
def smallTrailerBlock : HeaderBlock :=
  { encodeStateless := .ok (encOf okFields 10, 10) }

/-- C1 witness: the amended promotion property at the concrete poisoned
stream rsPoisoned, whose shared terminal error is connErrC1. -/
theorem C1_conn_err_promotion_witness :
    (RequestStreamM.recv_data rsPoisoned).1 = .error connErrC1
      ∧ (RequestStreamM.recv_trailers rsPoisoned).1 = .error connErrC1
      ∧ (RequestStreamM.send_data rsPoisoned [1, 2] (.error "io") (.ok ()) (.ok ())).1
        = .error connErrC1
      ∧ (RequestStreamM.send_data rsPoisoned [1, 2] (.ok ()) (.error "io") (.ok ())).1
        = .error connErrC1
      ∧ (RequestStreamM.send_data rsPoisoned [1, 2] (.ok ()) (.ok ()) (.error "io")).1
        = .error connErrC1
      ∧ (RequestStreamM.send_trailers rsPoisoned smallTrailerBlock (.error "io")).1
        = .error connErrC1
      ∧ RequestStreamM.finish rsPoisoned (.error "io") (.ok ()) = .error connErrC1
      ∧ RequestStreamM.finish rsPoisoned (.ok ()) (.error "io") = .error connErrC1 :=
  C1_conn_err_promotion connErrC1 (.transport "reset") "io" rsPoisoned rsPoisoned rsPoisoned
    [] [1, 2] smallTrailerBlock (encOf okFields 10) 10 (.ok ()) (.ok ()) (.ok ())
    rfl rfl rfl rfl rfl rfl rfl rfl (by decide)
